import Mathlib

/-
  Verification of the StealthCAPTCHA behavioral tracker
  (src/StealthDetect/static/js/admin.js, the IIFE starting at the
  "StealthCAPTCHA Behavioral Tracker" header).

  The tracker's module state and its handlers are embedded as a pure state
  machine: each DOM handler becomes a function TrackerState -> input ->
  TrackerState, network submissions become functions parameterized by the
  outcome the network would deliver, and JS arrays become Lists (push is
  append, shift is tail, slice(-n) is sliceLast n).
-/

namespace StealthDetect

/- CONFIG (admin.js): collection interval and per-category window capacities. -/
def dataCollectionInterval : Nat := 5000

def maxMouseEvents : Nat := 100

def maxClickEvents : Nat := 50

def maxKeystrokeEvents : Nat := 100

def maxScrollEvents : Nat := 50

/-- JS `arr.slice(-n)`: the most recent `n` (or fewer) elements of `arr`. -/
def sliceLast {α : Type} (n : Nat) (l : List α) : List α :=
  l.drop (l.length - n)

/-- The push-then-conditionally-shift pattern used by the handlers:
`arr.push(e); if (arr.length > cap) arr.shift();`. -/
def pushBounded {α : Type} (cap : Nat) (l : List α) (e : α) : List α :=
  if cap < (l ++ [e]).length then (l ++ [e]).tail else l ++ [e]

/- Normalized event records, one shape per pushed object literal.
   Coordinates and timestamps are JS numbers holding integer pixel/ms
   values; they are modeled as Int.  The derived `velocity`/`acceleration`
   fields of mouse-move records are modeled by the standalone `velocity`
   function below (they do not affect buffer bookkeeping). -/

structure MouseEvt where
  x : Int
  y : Int
  timestamp : Int
  target : String
deriving DecidableEq

inductive ClickEvt where
  | click (x y timestamp button : Int) (target : String)
      (targetId targetClassName : Option String)
  | mousedown (x y timestamp button : Int)
  | mouseup (x y timestamp button : Int) (duration : Option Int)
deriving DecidableEq

inductive KeyEvt where
  | keydown (key : String) (keyCode timestamp : Int)
      (ctrlKey altKey shiftKey metaKey : Bool)
  | keyup (key : String) (keyCode timestamp : Int) (duration : Int)
deriving DecidableEq

inductive ScrollEvt where
  | scroll (scrollX scrollY timestamp : Int) (target : String)
  | wheel (deltaX deltaY deltaZ deltaMode timestamp : Int)
deriving DecidableEq

inductive WindowEvt where
  | focus (timestamp : Int)
  | blur (timestamp : Int)
deriving DecidableEq

structure VisibilityEvt where
  hidden : Bool
  timestamp : Int
  visibilityState : String
deriving DecidableEq

inductive TouchEvt where
  | touchstart (x y timestamp : Int) (touchCount : Nat)
  | touchmove (x y timestamp : Int) (touchCount : Nat)
  | touchend (timestamp : Int) (touchCount : Nat)
deriving DecidableEq

/- collectDeviceFingerprint: a fixed-shape record of host attributes. -/
structure DeviceFingerprint where
  userAgent : String
  screenResolution : String
  timezone : String
  language : String
  platform : String
  cookieEnabled : Bool
  doNotTrack : Option String
  onlineStatus : Bool
  touchSupport : Bool
deriving DecidableEq

/- Raw host (DOM) events, carrying the fields the handlers read.  `now`
   models the value Date.now() returns inside the handler; `targetRef` is a
   stable identifier for the event target node (used for the
   `_mouseDownTime` scratch field the source stores on the target). -/

structure DomMouseEvent where
  clientX : Int
  clientY : Int
  button : Int
  targetTag : String
  targetId : Option String
  targetClassName : Option String
  targetRef : String
  now : Int
deriving DecidableEq

structure DomKeyEvent where
  key : String
  keyCode : Int
  ctrlKey : Bool
  altKey : Bool
  shiftKey : Bool
  metaKey : Bool
  now : Int
deriving DecidableEq

structure DomScrollEvent where
  scrollX : Int
  scrollY : Int
  targetTag : String
  now : Int
deriving DecidableEq

structure DomWheelEvent where
  deltaX : Int
  deltaY : Int
  deltaZ : Int
  deltaMode : Int
  now : Int
deriving DecidableEq

/-- The tracker's module-level mutable state: `behavioralData`, the four
lifetime totals, `isTracking`, the timer handle (as a Bool), the
listener-subscription status (as a Bool), `lastMouseEvent`,
`keystrokeStartTime`, and the per-target `_mouseDownTime` scratch fields
(as a map from target identifier to an optional timestamp). -/
structure TrackerState where
  sessionId : Option String
  mouseMovements : List MouseEvt
  clickPatterns : List ClickEvt
  keystrokePatterns : List KeyEvt
  scrollPatterns : List ScrollEvt
  windowEvents : List WindowEvt
  visibilityEvents : List VisibilityEvt
  touchEvents : List TouchEvt
  deviceFingerprint : Option DeviceFingerprint
  startTime : Int
  isTracking : Bool
  listening : Bool
  timerActive : Bool
  lastMouseEvent : Option MouseEvt
  keystrokeStartTime : Option Int
  targetDownTime : String → Option Int
  mouseMovementTotal : Nat
  clickPatternTotal : Nat
  keystrokePatternTotal : Nat
  scrollPatternTotal : Nat

/-- The state at module load: `behavioralData` with empty arrays and null
session, all totals zero, not tracking, no listeners, no timer. -/
def initState (t0 : Int) : TrackerState :=
  { sessionId := none
    mouseMovements := []
    clickPatterns := []
    keystrokePatterns := []
    scrollPatterns := []
    windowEvents := []
    visibilityEvents := []
    touchEvents := []
    deviceFingerprint := none
    startTime := t0
    isTracking := false
    listening := false
    timerActive := false
    lastMouseEvent := none
    keystrokeStartTime := none
    targetDownTime := fun _ => none
    mouseMovementTotal := 0
    clickPatternTotal := 0
    keystrokePatternTotal := 0
    scrollPatternTotal := 0 }

/- ------------------------- event handlers ------------------------- -/

def toMouseEvt (e : DomMouseEvent) : MouseEvt :=
  { x := e.clientX, y := e.clientY, timestamp := e.now, target := e.targetTag }

/-- handleMouseMove: push the normalized record, remember it as
`lastMouseEvent`, increment the total, and shift when the array exceeds
`maxMouseEvents`. -/
def handleMouseMove (s : TrackerState) (e : DomMouseEvent) : TrackerState :=
  { s with
    mouseMovements := pushBounded maxMouseEvents s.mouseMovements (toMouseEvt e)
    lastMouseEvent := some (toMouseEvt e)
    mouseMovementTotal := s.mouseMovementTotal + 1 }

def toClickEvt (e : DomMouseEvent) : ClickEvt :=
  .click e.clientX e.clientY e.now e.button e.targetTag e.targetId e.targetClassName

/-- handleClick: push, increment the total, shift past `maxClickEvents`. -/
def handleClick (s : TrackerState) (e : DomMouseEvent) : TrackerState :=
  { s with
    clickPatterns := pushBounded maxClickEvents s.clickPatterns (toClickEvt e)
    clickPatternTotal := s.clickPatternTotal + 1 }

/-- handleMouseDown: store `_mouseDownTime` on the target and push a
mousedown record.  Note: the source neither increments `clickPatternTotal`
nor trims `clickPatterns` here. -/
def handleMouseDown (s : TrackerState) (e : DomMouseEvent) : TrackerState :=
  { s with
    targetDownTime := fun t => if t = e.targetRef then some e.now else s.targetDownTime t
    clickPatterns :=
      s.clickPatterns ++ [ClickEvt.mousedown e.clientX e.clientY e.now e.button] }

/-- handleMouseUp: push a mouseup record whose `duration` field is present
only when the target carries a `_mouseDownTime` (which is then deleted).
Note: the source neither increments `clickPatternTotal` nor trims
`clickPatterns` here. -/
def handleMouseUp (s : TrackerState) (e : DomMouseEvent) : TrackerState :=
  { s with
    clickPatterns := s.clickPatterns ++
      [ClickEvt.mouseup e.clientX e.clientY e.now e.button
        ((s.targetDownTime e.targetRef).map (fun dt => e.now - dt))]
    targetDownTime := fun t => if t = e.targetRef then none else s.targetDownTime t }

/-- `event.key.length === 1 ? 'char' : event.key` — anonymize characters. -/
def anonymizeKey (k : String) : String :=
  if k.length = 1 then "char" else k

def toKeyDownEvt (e : DomKeyEvent) : KeyEvt :=
  .keydown (anonymizeKey e.key) e.keyCode e.now e.ctrlKey e.altKey e.shiftKey e.metaKey

/-- handleKeyDown: set the (global) `keystrokeStartTime`, push, increment
the total.  Note: the source does not trim `keystrokePatterns` here. -/
def handleKeyDown (s : TrackerState) (e : DomKeyEvent) : TrackerState :=
  { s with
    keystrokeStartTime := some e.now
    keystrokePatterns := s.keystrokePatterns ++ [toKeyDownEvt e]
    keystrokePatternTotal := s.keystrokePatternTotal + 1 }

/-- `keystrokeStartTime ? now - keystrokeStartTime : 0` (a zero timestamp
would be falsy in JS; Date.now() values are positive, so Option models the
null check). -/
def keyUpDuration (kst : Option Int) (now : Int) : Int :=
  match kst with
  | some t => now - t
  | none => 0

def toKeyUpEvt (kst : Option Int) (e : DomKeyEvent) : KeyEvt :=
  .keyup (anonymizeKey e.key) e.keyCode e.now (keyUpDuration kst e.now)

/-- handleKeyUp: push a keyup record with a duration computed from the
global `keystrokeStartTime`, increment the total, shift past
`maxKeystrokeEvents`. -/
def handleKeyUp (s : TrackerState) (e : DomKeyEvent) : TrackerState :=
  { s with
    keystrokePatterns :=
      pushBounded maxKeystrokeEvents s.keystrokePatterns
        (toKeyUpEvt s.keystrokeStartTime e)
    keystrokePatternTotal := s.keystrokePatternTotal + 1 }

def toScrollEvt (e : DomScrollEvent) : ScrollEvt :=
  .scroll e.scrollX e.scrollY e.now e.targetTag

/-- handleScroll: push, increment the total, shift past `maxScrollEvents`. -/
def handleScroll (s : TrackerState) (e : DomScrollEvent) : TrackerState :=
  { s with
    scrollPatterns := pushBounded maxScrollEvents s.scrollPatterns (toScrollEvt e)
    scrollPatternTotal := s.scrollPatternTotal + 1 }

def toWheelEvt (e : DomWheelEvent) : ScrollEvt :=
  .wheel e.deltaX e.deltaY e.deltaZ e.deltaMode e.now

/-- handleWheel: push into `scrollPatterns` and increment the total.
Note: the source does not trim `scrollPatterns` here. -/
def handleWheel (s : TrackerState) (e : DomWheelEvent) : TrackerState :=
  { s with
    scrollPatterns := s.scrollPatterns ++ [toWheelEvt e]
    scrollPatternTotal := s.scrollPatternTotal + 1 }

def handleWindowFocus (s : TrackerState) (now : Int) : TrackerState :=
  { s with windowEvents := s.windowEvents ++ [WindowEvt.focus now] }

def handleWindowBlur (s : TrackerState) (now : Int) : TrackerState :=
  { s with windowEvents := s.windowEvents ++ [WindowEvt.blur now] }

def handleVisibilityChange (s : TrackerState) (hidden : Bool) (visState : String)
    (now : Int) : TrackerState :=
  { s with visibilityEvents := s.visibilityEvents ++
      [{ hidden := hidden, timestamp := now, visibilityState := visState }] }

def handleTouchStart (s : TrackerState) (x y now : Int) (touchCount : Nat) :
    TrackerState :=
  if 0 < touchCount then
    { s with touchEvents := s.touchEvents ++ [TouchEvt.touchstart x y now touchCount] }
  else s

def handleTouchMove (s : TrackerState) (x y now : Int) (touchCount : Nat) :
    TrackerState :=
  if 0 < touchCount then
    { s with touchEvents := s.touchEvents ++ [TouchEvt.touchmove x y now touchCount] }
  else s

def handleTouchEnd (s : TrackerState) (now : Int) (touchCount : Nat) : TrackerState :=
  { s with touchEvents := s.touchEvents ++ [TouchEvt.touchend now touchCount] }

/- ----------------- subscription, init, stop, dispatch ----------------- -/

/-- The thirteen host event kinds the tracker subscribes to. -/
inductive HostEvent where
  | mousemove (e : DomMouseEvent)
  | click (e : DomMouseEvent)
  | mousedown (e : DomMouseEvent)
  | mouseup (e : DomMouseEvent)
  | keydown (e : DomKeyEvent)
  | keyup (e : DomKeyEvent)
  | scroll (e : DomScrollEvent)
  | wheel (e : DomWheelEvent)
  | focus (now : Int)
  | blur (now : Int)
  | visibilitychange (hidden : Bool) (visState : String) (now : Int)
  | touchstart (x y now : Int) (touchCount : Nat)
  | touchmove (x y now : Int) (touchCount : Nat)
  | touchend (now : Int) (touchCount : Nat)

def handleEvent (s : TrackerState) : HostEvent → TrackerState
  | .mousemove e => handleMouseMove s e
  | .click e => handleClick s e
  | .mousedown e => handleMouseDown s e
  | .mouseup e => handleMouseUp s e
  | .keydown e => handleKeyDown s e
  | .keyup e => handleKeyUp s e
  | .scroll e => handleScroll s e
  | .wheel e => handleWheel s e
  | .focus now => handleWindowFocus s now
  | .blur now => handleWindowBlur s now
  | .visibilitychange hidden visState now => handleVisibilityChange s hidden visState now
  | .touchstart x y now c => handleTouchStart s x y now c
  | .touchmove x y now c => handleTouchMove s x y now c
  | .touchend now c => handleTouchEnd s now c

/-- A host-delivered event reaches a handler only while the listeners
added by setupEventListeners are still subscribed. -/
def dispatch (s : TrackerState) (e : HostEvent) : TrackerState :=
  if s.listening then handleEvent s e else s

/-- init(providedSessionId): no-op if already tracking; otherwise set the
session id (the provided one, else a generated one), collect the
fingerprint, subscribe the listeners, start the collection timer, and mark
tracking.  `generatedId` stands for the value generateSessionId() returns. -/
def init (s : TrackerState) (providedSessionId : Option String)
    (generatedId : String) (fp : DeviceFingerprint) : TrackerState :=
  if s.isTracking then s
  else
    { s with
      sessionId := some (providedSessionId.getD generatedId)
      deviceFingerprint := some fp
      listening := true
      timerActive := true
      isTracking := true }

/-- stop(): no-op if not tracking; otherwise clear the collection timer,
remove every event listener, and mark not tracking. -/
def stop (s : TrackerState) : TrackerState :=
  if s.isTracking then
    { s with timerActive := false, listening := false, isTracking := false }
  else s

/- ------------------------- runs of events ------------------------- -/

def runMouseMoves (s : TrackerState) (es : List DomMouseEvent) : TrackerState :=
  es.foldl handleMouseMove s

def runClicks (s : TrackerState) (es : List DomMouseEvent) : TrackerState :=
  es.foldl handleClick s

def runScrolls (s : TrackerState) (es : List DomScrollEvent) : TrackerState :=
  es.foldl handleScroll s

def runKeyUps (s : TrackerState) (es : List DomKeyEvent) : TrackerState :=
  es.foldl handleKeyUp s

/- --------------------- kinematic derivation --------------------- -/

/-- Lines 764-772: `timeDiff > 0 ? Math.sqrt(dx*dx + dy*dy) / timeDiff : 0`,
computed from the current and the immediately previous mouse-move record.
JS double arithmetic is idealized over the reals. -/
noncomputable def velocity (prev curr : MouseEvt) : ℝ :=
  if 0 < curr.timestamp - prev.timestamp then
    Real.sqrt (((curr.x - prev.x : Int) : ℝ) ^ 2 + ((curr.y - prev.y : Int) : ℝ) ^ 2)
      / ((curr.timestamp - prev.timestamp : Int) : ℝ)
  else 0

/- --------------------- network submissions --------------------- -/

/-- The outcome the host network delivers for one fetch: either a transport
failure (the promise rejects) or a response with a status, a status text,
and the result of decoding its body as JSON (`response.json()` resolving
with the body or rejecting with a message). -/
inductive FetchOutcome where
  | transportError (message : String)
  | response (status : Nat) (statusText : String) (jsonResult : Except String String)

/-- `response.ok`: status in the inclusive range 200-299. -/
def respOk (status : Nat) : Bool :=
  decide (200 ≤ status) && decide (status < 300)

def jsonParsed : Except String String → Bool
  | .ok _ => true
  | .error _ => false

/-- The fetch chain reaches its success continuation exactly when the
response is ok and its body decodes as JSON; a non-ok status throws
`HTTP status: statusText` into the catch branch. -/
def flushResponseSuccess : FetchOutcome → Bool
  | .transportError _ => false
  | .response status _ jsonResult => respOk status && jsonParsed jsonResult

/-- The message of the error the catch branch receives. -/
def httpErrorMessage (status : Nat) (statusText : String) : String :=
  "HTTP " ++ toString status ++ ": " ++ statusText

/-- The payload sendBehavioralData posts: every category array limited to
its CONFIG capacity via `slice(-cap)`. -/
structure FlushPayload where
  sessionId : String
  mouseMovements : List MouseEvt
  clickPatterns : List ClickEvt
  keystrokePatterns : List KeyEvt
  scrollPatterns : List ScrollEvt
  deviceFingerprint : Option DeviceFingerprint
  timestamp : Int

def buildFlushPayload (s : TrackerState) (sid : String) (now : Int) : FlushPayload :=
  { sessionId := sid
    mouseMovements := sliceLast maxMouseEvents s.mouseMovements
    clickPatterns := sliceLast maxClickEvents s.clickPatterns
    keystrokePatterns := sliceLast maxKeystrokeEvents s.keystrokePatterns
    scrollPatterns := sliceLast maxScrollEvents s.scrollPatterns
    deviceFingerprint := s.deviceFingerprint
    timestamp := now }

/-- sendBehavioralData: bail out (issuing no request) when the session id
is null or tracking is off; otherwise post `buildFlushPayload` and, only
when the fetch chain reaches its success continuation, keep just the last
10 entries of every category array.  The catch branch only logs.  Returns
the new state and the payload posted (none when no request was issued). -/
def sendBehavioralData (s : TrackerState) (out : FetchOutcome) (now : Int) :
    TrackerState × Option FlushPayload :=
  match s.sessionId, s.isTracking with
  | some sid, true =>
    if flushResponseSuccess out then
      ({ s with
          mouseMovements := sliceLast 10 s.mouseMovements
          clickPatterns := sliceLast 10 s.clickPatterns
          keystrokePatterns := sliceLast 10 s.keystrokePatterns
          scrollPatterns := sliceLast 10 s.scrollPatterns },
        some (buildFlushPayload s sid now))
    else (s, some (buildFlushPayload s sid now))
  | _, _ => (s, none)

/-- One firing of the setInterval(sendBehavioralData, interval) timer. -/
def timerTick (s : TrackerState) (out : FetchOutcome) (now : Int) : TrackerState :=
  if s.timerActive then (sendBehavioralData s out now).1 else s

/- ------------------ on-demand classification ------------------ -/

/-- The payload detectBot posts to /api/detect_bot. -/
structure DetectionPayload where
  sessionId : String
  page_url : String
  action_type : String
  mouseMovements : List MouseEvt
  clickPatterns : List ClickEvt
  keystrokePatterns : List KeyEvt
  scrollPatterns : List ScrollEvt
  deviceFingerprint : Option DeviceFingerprint
  timestamp : Int

def buildDetectionPayload (s : TrackerState) (sid : String) (pageUrl : String)
    (now : Int) : DetectionPayload :=
  { sessionId := sid
    page_url := pageUrl
    action_type := "general"
    mouseMovements := sliceLast maxMouseEvents s.mouseMovements
    clickPatterns := sliceLast maxClickEvents s.clickPatterns
    keystrokePatterns := sliceLast maxKeystrokeEvents s.keystrokePatterns
    scrollPatterns := sliceLast maxScrollEvents s.scrollPatterns
    deviceFingerprint := s.deviceFingerprint
    timestamp := now }

/-- One argument passed to the detectBot callback: the decoded response
body, or an object carrying an error message. -/
inductive CallbackArg where
  | success (data : String)
  | error (message : String)
deriving DecidableEq

/-- What one detectBot call does: the payload it posted (none when it
returned before fetching) and the arguments of the callback invocations it
performed, in order. -/
structure DetectResult where
  payloadSent : Option DetectionPayload
  callbackCalls : List CallbackArg

/-- detectBot(callback): with no session id, call the callback once with
an error object and return without fetching.  Otherwise post the detection
payload; on an ok response whose body decodes, call the callback once with
the decoded body; on a transport error, a non-ok status, or a body that
fails to decode, the catch branch calls it once with the error message.
The callback is a function (the `typeof callback` guards pass). -/
def detectBot (s : TrackerState) (pageUrl : String) (now : Int)
    (out : FetchOutcome) : DetectResult :=
  match s.sessionId with
  | none =>
    { payloadSent := none
      callbackCalls := [CallbackArg.error "No session data available"] }
  | some sid =>
    { payloadSent := some (buildDetectionPayload s sid pageUrl now)
      callbackCalls :=
        match out with
        | .transportError m => [CallbackArg.error m]
        | .response status statusText jsonResult =>
          if respOk status then
            match jsonResult with
            | .ok body => [CallbackArg.success body]
            | .error m => [CallbackArg.error m]
          else [CallbackArg.error (httpErrorMessage status statusText)] }

/-- The body the fetch chain hands to the success continuation, when it
reaches one. -/
def detectSuccessBody : FetchOutcome → Option String
  | .transportError _ => none
  | .response status _ jsonResult =>
    if respOk status then
      match jsonResult with
      | .ok body => some body
      | .error _ => none
    else none

/-- The message of the error the catch branch receives, when it fires. -/
def detectFailureReason : FetchOutcome → Option String
  | .transportError m => some m
  | .response status statusText jsonResult =>
    if respOk status then
      match jsonResult with
      | .ok _ => none
      | .error m => some m
    else some (httpErrorMessage status statusText)

/- ------------------------- list lemmas ------------------------- -/

lemma sliceLast_length {α : Type} (n : Nat) (l : List α) :
    (sliceLast n l).length = min n l.length := by
  simp [sliceLast]
  omega

lemma sliceLast_of_length_le {α : Type} (n : Nat) (l : List α)
    (h : l.length ≤ n) : sliceLast n l = l := by
  simp [sliceLast, Nat.sub_eq_zero_of_le h]

lemma sliceLast_suffix {α : Type} (n : Nat) (l : List α) : sliceLast n l <:+ l :=
  List.drop_suffix _ _

lemma eq_drop_of_suffix {α : Type} {s t : List α} (h : s <:+ t) :
    s = t.drop (t.length - s.length) := by
  obtain ⟨p, rfl⟩ := h
  have hl : (p ++ s).length - s.length = p.length := by
    simp
  rw [hl, List.drop_left]

lemma suffix_append_right {α : Type} {s t : List α} (u : List α) (h : s <:+ t) :
    s ++ u <:+ t ++ u := by
  obtain ⟨p, rfl⟩ := h
  exact ⟨p, (List.append_assoc _ _ _).symm⟩

lemma sliceLast_eq_of_suffix {α : Type} {u t : List α} (n : Nat) (h : u <:+ t)
    (hn : n ≤ u.length) : sliceLast n u = sliceLast n t := by
  have h1 : sliceLast n u <:+ t := (sliceLast_suffix n u).trans h
  have h2 : sliceLast n t <:+ t := sliceLast_suffix n t
  have l1 : (sliceLast n u).length = n := by
    rw [sliceLast_length]
    omega
  have l2 : (sliceLast n t).length = n := by
    have := h.length_le
    rw [sliceLast_length]
    omega
  rw [eq_drop_of_suffix h1, eq_drop_of_suffix h2, l1, l2]

lemma pushBounded_length {α : Type} (cap : Nat) (l : List α) (e : α)
    (h : l.length ≤ cap) :
    (pushBounded cap l e).length = min (l.length + 1) cap := by
  unfold pushBounded
  split
  · rename_i hlt
    simp at hlt ⊢
    omega
  · rename_i hge
    simp at hge ⊢
    omega

lemma pushBounded_length_le {α : Type} (cap : Nat) (l : List α) (e : α)
    (h : l.length ≤ cap) : (pushBounded cap l e).length ≤ cap := by
  rw [pushBounded_length cap l e h]
  omega

lemma pushBounded_getLast? {α : Type} (cap : Nat) (l : List α) (e : α)
    (hcap : 1 ≤ cap) : (pushBounded cap l e).getLast? = some e := by
  unfold pushBounded
  split
  · rename_i hlt
    cases l with
    | nil => simp at hlt; omega
    | cons a l' => simp
  · simp

lemma sliceLast_length_le {α : Type} (n : Nat) (l : List α) :
    (sliceLast n l).length ≤ n := by
  rw [sliceLast_length]
  omega

lemma sliceLast_pushBounded_append {α : Type} (cap : Nat) (l : List α) (e : α)
    (es : List α) (h : l.length ≤ cap) :
    sliceLast cap (pushBounded cap l e ++ es) = sliceLast cap ((l ++ [e]) ++ es) := by
  unfold pushBounded
  split
  · rename_i hlt
    apply sliceLast_eq_of_suffix
    · exact suffix_append_right es (List.tail_suffix _)
    · simp at hlt ⊢
      omega
  · rfl

/- --------------------- run characterizations --------------------- -/

lemma runMouseMoves_spec (es : List DomMouseEvent) : ∀ (s : TrackerState),
    s.mouseMovements.length ≤ maxMouseEvents →
    (runMouseMoves s es).mouseMovements
        = sliceLast maxMouseEvents (s.mouseMovements ++ es.map toMouseEvt)
      ∧ (runMouseMoves s es).mouseMovementTotal
        = s.mouseMovementTotal + es.length := by
  induction es with
  | nil =>
    intro s h
    refine ⟨?_, rfl⟩
    simp [runMouseMoves, sliceLast_of_length_le _ _ h]
  | cons e es ih =>
    intro s h
    have hstep : runMouseMoves s (e :: es) = runMouseMoves (handleMouseMove s e) es := rfl
    have h' : (handleMouseMove s e).mouseMovements.length ≤ maxMouseEvents :=
      pushBounded_length_le _ _ _ h
    obtain ⟨h1, h2⟩ := ih (handleMouseMove s e) h'
    constructor
    · rw [hstep, h1]
      show sliceLast maxMouseEvents
          (pushBounded maxMouseEvents s.mouseMovements (toMouseEvt e) ++ es.map toMouseEvt) = _
      rw [sliceLast_pushBounded_append _ _ _ _ h]
      simp
    · rw [hstep, h2]
      show s.mouseMovementTotal + 1 + es.length = _
      simp
      omega

lemma runClicks_spec (es : List DomMouseEvent) : ∀ (s : TrackerState),
    s.clickPatterns.length ≤ maxClickEvents →
    (runClicks s es).clickPatterns
        = sliceLast maxClickEvents (s.clickPatterns ++ es.map toClickEvt)
      ∧ (runClicks s es).clickPatternTotal
        = s.clickPatternTotal + es.length := by
  induction es with
  | nil =>
    intro s h
    refine ⟨?_, rfl⟩
    simp [runClicks, sliceLast_of_length_le _ _ h]
  | cons e es ih =>
    intro s h
    have hstep : runClicks s (e :: es) = runClicks (handleClick s e) es := rfl
    have h' : (handleClick s e).clickPatterns.length ≤ maxClickEvents :=
      pushBounded_length_le _ _ _ h
    obtain ⟨h1, h2⟩ := ih (handleClick s e) h'
    constructor
    · rw [hstep, h1]
      show sliceLast maxClickEvents
          (pushBounded maxClickEvents s.clickPatterns (toClickEvt e) ++ es.map toClickEvt) = _
      rw [sliceLast_pushBounded_append _ _ _ _ h]
      simp
    · rw [hstep, h2]
      show s.clickPatternTotal + 1 + es.length = _
      simp
      omega

lemma runScrolls_spec (es : List DomScrollEvent) : ∀ (s : TrackerState),
    s.scrollPatterns.length ≤ maxScrollEvents →
    (runScrolls s es).scrollPatterns
        = sliceLast maxScrollEvents (s.scrollPatterns ++ es.map toScrollEvt)
      ∧ (runScrolls s es).scrollPatternTotal
        = s.scrollPatternTotal + es.length := by
  induction es with
  | nil =>
    intro s h
    refine ⟨?_, rfl⟩
    simp [runScrolls, sliceLast_of_length_le _ _ h]
  | cons e es ih =>
    intro s h
    have hstep : runScrolls s (e :: es) = runScrolls (handleScroll s e) es := rfl
    have h' : (handleScroll s e).scrollPatterns.length ≤ maxScrollEvents :=
      pushBounded_length_le _ _ _ h
    obtain ⟨h1, h2⟩ := ih (handleScroll s e) h'
    constructor
    · rw [hstep, h1]
      show sliceLast maxScrollEvents
          (pushBounded maxScrollEvents s.scrollPatterns (toScrollEvt e) ++ es.map toScrollEvt) = _
      rw [sliceLast_pushBounded_append _ _ _ _ h]
      simp
    · rw [hstep, h2]
      show s.scrollPatternTotal + 1 + es.length = _
      simp
      omega

lemma runKeyUps_spec (es : List DomKeyEvent) : ∀ (s : TrackerState),
    s.keystrokePatterns.length ≤ maxKeystrokeEvents →
    (runKeyUps s es).keystrokePatterns
        = sliceLast maxKeystrokeEvents
            (s.keystrokePatterns ++ es.map (toKeyUpEvt s.keystrokeStartTime))
      ∧ (runKeyUps s es).keystrokePatternTotal
        = s.keystrokePatternTotal + es.length
      ∧ (runKeyUps s es).keystrokeStartTime = s.keystrokeStartTime := by
  induction es with
  | nil =>
    intro s h
    refine ⟨?_, rfl, rfl⟩
    simp [runKeyUps, sliceLast_of_length_le _ _ h]
  | cons e es ih =>
    intro s h
    have hstep : runKeyUps s (e :: es) = runKeyUps (handleKeyUp s e) es := rfl
    have h' : (handleKeyUp s e).keystrokePatterns.length ≤ maxKeystrokeEvents :=
      pushBounded_length_le _ _ _ h
    have hkst : (handleKeyUp s e).keystrokeStartTime = s.keystrokeStartTime := rfl
    obtain ⟨h1, h2, h3⟩ := ih (handleKeyUp s e) h'
    refine ⟨?_, ?_, by rw [hstep, h3, hkst]⟩
    · rw [hstep, h1, hkst]
      show sliceLast maxKeystrokeEvents
          (pushBounded maxKeystrokeEvents s.keystrokePatterns
              (toKeyUpEvt s.keystrokeStartTime e)
            ++ es.map (toKeyUpEvt s.keystrokeStartTime)) = _
      rw [sliceLast_pushBounded_append _ _ _ _ h]
      simp
    · rw [hstep, h2]
      show s.keystrokePatternTotal + 1 + es.length = _
      simp
      omega

/- --------------------------- claims --------------------------- -/

/-- C1 counterexample: a single mousedown event captured from the initial
empty state leaves the click lifetime counter at 0 while the click window
already holds 1 entry, refuting `lifetime_counter[c] = N` (here N = 1) and
`lifetime_counter[c] >= window_length[c]` for the click category. -/
theorem C1_counterexample :
    (handleMouseDown (initState 0)
        { clientX := 5, clientY := 6, button := 0, targetTag := "button",
          targetId := none, targetClassName := none, targetRef := "btn1",
          now := 1000 }).clickPatternTotal = 0
    ∧ (handleMouseDown (initState 0)
        { clientX := 5, clientY := 6, button := 0, targetTag := "button",
          targetId := none, targetClassName := none, targetRef := "btn1",
          now := 1000 }).clickPatterns.length = 1 :=
  ⟨rfl, rfl⟩

/-- C1 (amended): from the initial empty state, for a sequence of N
mousemove events the mouse lifetime counter equals N and the mouse window
holds exactly the last min(N, capacity) normalized records in arrival
order; likewise for sequences of click events, scroll events, and keyup
events.  However mousedown and mouseup records are appended to the click
window without incrementing the click lifetime counter and without
eviction, wheel records increment the scroll counter but are appended
without eviction, and keydown records increment the keystroke counter but
are appended without eviction — so for those event kinds the window can
exceed its capacity and, for mousedown/mouseup, the invariant
`lifetime_counter[click] >= window_length[click]` fails. -/
theorem C1_dual_buffer_amended (t0 : Int) :
    (∀ es : List DomMouseEvent,
        (runMouseMoves (initState t0) es).mouseMovementTotal = es.length
        ∧ (runMouseMoves (initState t0) es).mouseMovements
            = sliceLast maxMouseEvents (es.map toMouseEvt)
        ∧ (runMouseMoves (initState t0) es).mouseMovements.length
            = min es.length maxMouseEvents)
    ∧ (∀ es : List DomMouseEvent,
        (runClicks (initState t0) es).clickPatternTotal = es.length
        ∧ (runClicks (initState t0) es).clickPatterns
            = sliceLast maxClickEvents (es.map toClickEvt)
        ∧ (runClicks (initState t0) es).clickPatterns.length
            = min es.length maxClickEvents)
    ∧ (∀ es : List DomScrollEvent,
        (runScrolls (initState t0) es).scrollPatternTotal = es.length
        ∧ (runScrolls (initState t0) es).scrollPatterns
            = sliceLast maxScrollEvents (es.map toScrollEvt)
        ∧ (runScrolls (initState t0) es).scrollPatterns.length
            = min es.length maxScrollEvents)
    ∧ (∀ es : List DomKeyEvent,
        (runKeyUps (initState t0) es).keystrokePatternTotal = es.length
        ∧ (runKeyUps (initState t0) es).keystrokePatterns
            = sliceLast maxKeystrokeEvents (es.map (toKeyUpEvt none))
        ∧ (runKeyUps (initState t0) es).keystrokePatterns.length
            = min es.length maxKeystrokeEvents)
    ∧ (∀ (s : TrackerState) (e : DomMouseEvent),
        (handleMouseDown s e).clickPatternTotal = s.clickPatternTotal
        ∧ (handleMouseDown s e).clickPatterns
            = s.clickPatterns ++ [ClickEvt.mousedown e.clientX e.clientY e.now e.button])
    ∧ (∀ (s : TrackerState) (e : DomMouseEvent),
        (handleMouseUp s e).clickPatternTotal = s.clickPatternTotal
        ∧ (handleMouseUp s e).clickPatterns.length = s.clickPatterns.length + 1)
    ∧ (∀ (s : TrackerState) (e : DomWheelEvent),
        (handleWheel s e).scrollPatternTotal = s.scrollPatternTotal + 1
        ∧ (handleWheel s e).scrollPatterns = s.scrollPatterns ++ [toWheelEvt e])
    ∧ (∀ (s : TrackerState) (e : DomKeyEvent),
        (handleKeyDown s e).keystrokePatternTotal = s.keystrokePatternTotal + 1
        ∧ (handleKeyDown s e).keystrokePatterns = s.keystrokePatterns ++ [toKeyDownEvt e]) := by
  refine ⟨?_, ?_, ?_, ?_, ?_, ?_, ?_, ?_⟩
  · intro es
    obtain ⟨h1, h2⟩ := runMouseMoves_spec es (initState t0) (by simp [initState])
    refine ⟨?_, ?_, ?_⟩
    · rw [h2]
      simp [initState]
    · rw [h1]
      simp [initState]
    · rw [h1, sliceLast_length]
      simp [initState]
      omega
  · intro es
    obtain ⟨h1, h2⟩ := runClicks_spec es (initState t0) (by simp [initState])
    refine ⟨?_, ?_, ?_⟩
    · rw [h2]
      simp [initState]
    · rw [h1]
      simp [initState]
    · rw [h1, sliceLast_length]
      simp [initState]
      omega
  · intro es
    obtain ⟨h1, h2⟩ := runScrolls_spec es (initState t0) (by simp [initState])
    refine ⟨?_, ?_, ?_⟩
    · rw [h2]
      simp [initState]
    · rw [h1]
      simp [initState]
    · rw [h1, sliceLast_length]
      simp [initState]
      omega
  · intro es
    obtain ⟨h1, h2, h3⟩ := runKeyUps_spec es (initState t0) (by simp [initState])
    refine ⟨?_, ?_, ?_⟩
    · rw [h2]
      simp [initState]
    · rw [h1]
      simp [initState]
    · rw [h1, sliceLast_length]
      simp [initState]
      omega
  · intro s e
    exact ⟨rfl, rfl⟩
  · intro s e
    refine ⟨rfl, ?_⟩
    simp [handleMouseUp]
  · intro s e
    exact ⟨rfl, rfl⟩
  · intro s e
    exact ⟨rfl, rfl⟩

/-- C2: a detectBot call with a continuation invokes it exactly once
whatever the fetch outcome; when a session exists it receives the decoded
response body exactly when the fetch chain succeeds, and otherwise the
error message of the failure (transport error, non-2xx status, or
undecodable body). -/
theorem C2_detect_callback_once (s : TrackerState) (pageUrl : String) (now : Int)
    (out : FetchOutcome) :
    (detectBot s pageUrl now out).callbackCalls.length = 1
    ∧ (∀ sid body, s.sessionId = some sid → detectSuccessBody out = some body →
        (detectBot s pageUrl now out).callbackCalls = [CallbackArg.success body])
    ∧ (∀ sid msg, s.sessionId = some sid → detectFailureReason out = some msg →
        (detectBot s pageUrl now out).callbackCalls = [CallbackArg.error msg]) := by
  refine ⟨?_, ?_, ?_⟩
  · unfold detectBot
    cases hs : s.sessionId with
    | none => rfl
    | some sid =>
      cases out with
      | transportError m => rfl
      | response status statusText jsonResult =>
        simp only
        split
        · cases jsonResult <;> rfl
        · rfl
  · intro sid body hs hb
    unfold detectBot
    rw [hs]
    cases out with
    | transportError m => simp [detectSuccessBody] at hb
    | response status statusText jsonResult =>
      unfold detectSuccessBody at hb
      by_cases hok : respOk status = true
      · simp only [hok, if_true] at hb ⊢
        cases jsonResult with
        | ok b => simp at hb; simp [hb]
        | error m => simp at hb
      · simp [hok] at hb
  · intro sid msg hs hm
    unfold detectBot
    rw [hs]
    cases out with
    | transportError m =>
      simp [detectFailureReason] at hm
      simp [hm]
    | response status statusText jsonResult =>
      unfold detectFailureReason at hm
      by_cases hok : respOk status = true
      · simp only [hok, if_true] at hm ⊢
        cases jsonResult with
        | ok b => simp at hm
        | error m => simp at hm; simp [hm]
      · simp [hok] at hm ⊢
        simp [hm]

/-- C2 witness: with a session and an ok JSON response, the continuation
is invoked exactly once, with the decoded body. -/
theorem C2_witness :
    (detectBot { initState 0 with sessionId := some "sc_1" } "/task" 7000
        (FetchOutcome.response 200 "OK" (Except.ok "verdict"))).callbackCalls
      = [CallbackArg.success "verdict"] :=
  (C2_detect_callback_once { initState 0 with sessionId := some "sc_1" } "/task" 7000
      (FetchOutcome.response 200 "OK" (Except.ok "verdict"))).2.1
    "sc_1" "verdict" rfl (by simp [detectSuccessBody, respOk])

/-- C3: a failed flush (transport error or a response the fetch chain
rejects) leaves the whole tracker state — in particular all four windows
and all four lifetime counters — unchanged, does not touch the periodic
timer, and the next timer firing performs the flush again. -/
theorem C3_flush_failure_noop (s : TrackerState) (out out2 : FetchOutcome)
    (now now2 : Int) (hfail : flushResponseSuccess out = false) :
    (sendBehavioralData s out now).1 = s
    ∧ (sendBehavioralData s out now).1.timerActive = s.timerActive
    ∧ (s.timerActive = true →
        timerTick (sendBehavioralData s out now).1 out2 now2
          = (sendBehavioralData s out2 now2).1) := by
  have hbase : (sendBehavioralData s out now).1 = s := by
    unfold sendBehavioralData
    cases hs : s.sessionId with
    | none => rfl
    | some sid =>
      cases ht : s.isTracking with
      | false => rfl
      | true => simp [hfail]
  refine ⟨hbase, by rw [hbase], ?_⟩
  intro hta
  rw [hbase]
  unfold timerTick
  rw [if_pos hta]

/-- C3 witness: after a transport-error flush from a state with the timer
armed, the next tick performs the flush. -/
theorem C3_witness :
    timerTick (sendBehavioralData { initState 0 with timerActive := true }
        (FetchOutcome.transportError "Failed to fetch") 5000).1
      (FetchOutcome.transportError "Failed to fetch") 10000
    = (sendBehavioralData { initState 0 with timerActive := true }
        (FetchOutcome.transportError "Failed to fetch") 10000).1 :=
  (C3_flush_failure_noop { initState 0 with timerActive := true }
      (FetchOutcome.transportError "Failed to fetch")
      (FetchOutcome.transportError "Failed to fetch") 5000 10000 rfl).2.2 rfl

/-- C4 counterexample: a 2xx response whose body fails to decode as JSON
is handled by the catch branch, so the windows are NOT shrunk: with 11
mouse-move records in the window and a 200 response carrying an
undecodable body, the window still has 11 entries afterwards. -/
theorem C4_counterexample :
    respOk 200 = true
    ∧ (sendBehavioralData
          { initState 0 with
              sessionId := some "sc_1"
              isTracking := true
              mouseMovements := List.replicate 11 { x := 0, y := 0, timestamp := 0, target := "body" } }
          (FetchOutcome.response 200 "OK" (Except.error "SyntaxError")) 5000).1.mouseMovements.length
        = 11 :=
  ⟨rfl, rfl⟩

/-- C4 (amended): on a flush whose response is 2xx AND whose body decodes
as JSON, every one of the four category windows is shrunk to its most
recent 10 entries (resulting length min(10, previous length), keeping the
newest entries in order), and none of the four lifetime counters changes. -/
theorem C4_flush_success_amended (s : TrackerState) (sid : String)
    (out : FetchOutcome) (now : Int) (hsid : s.sessionId = some sid)
    (htr : s.isTracking = true) (hok : flushResponseSuccess out = true) :
    ((sendBehavioralData s out now).1.mouseMovements = sliceLast 10 s.mouseMovements
      ∧ (sendBehavioralData s out now).1.clickPatterns = sliceLast 10 s.clickPatterns
      ∧ (sendBehavioralData s out now).1.keystrokePatterns = sliceLast 10 s.keystrokePatterns
      ∧ (sendBehavioralData s out now).1.scrollPatterns = sliceLast 10 s.scrollPatterns)
    ∧ ((sendBehavioralData s out now).1.mouseMovements.length = min 10 s.mouseMovements.length
      ∧ (sendBehavioralData s out now).1.clickPatterns.length = min 10 s.clickPatterns.length
      ∧ (sendBehavioralData s out now).1.keystrokePatterns.length = min 10 s.keystrokePatterns.length
      ∧ (sendBehavioralData s out now).1.scrollPatterns.length = min 10 s.scrollPatterns.length)
    ∧ ((sendBehavioralData s out now).1.mouseMovements <:+ s.mouseMovements
      ∧ (sendBehavioralData s out now).1.clickPatterns <:+ s.clickPatterns
      ∧ (sendBehavioralData s out now).1.keystrokePatterns <:+ s.keystrokePatterns
      ∧ (sendBehavioralData s out now).1.scrollPatterns <:+ s.scrollPatterns)
    ∧ ((sendBehavioralData s out now).1.mouseMovementTotal = s.mouseMovementTotal
      ∧ (sendBehavioralData s out now).1.clickPatternTotal = s.clickPatternTotal
      ∧ (sendBehavioralData s out now).1.keystrokePatternTotal = s.keystrokePatternTotal
      ∧ (sendBehavioralData s out now).1.scrollPatternTotal = s.scrollPatternTotal) := by
  have hred : (sendBehavioralData s out now).1
      = { s with
          mouseMovements := sliceLast 10 s.mouseMovements
          clickPatterns := sliceLast 10 s.clickPatterns
          keystrokePatterns := sliceLast 10 s.keystrokePatterns
          scrollPatterns := sliceLast 10 s.scrollPatterns } := by
    unfold sendBehavioralData
    rw [hsid]
    simp [htr, hok]
  rw [hred]
  refine ⟨⟨rfl, rfl, rfl, rfl⟩, ⟨?_, ?_, ?_, ?_⟩, ⟨?_, ?_, ?_, ?_⟩, rfl, rfl, rfl, rfl⟩
  · exact sliceLast_length 10 _
  · exact sliceLast_length 10 _
  · exact sliceLast_length 10 _
  · exact sliceLast_length 10 _
  · exact sliceLast_suffix 10 _
  · exact sliceLast_suffix 10 _
  · exact sliceLast_suffix 10 _
  · exact sliceLast_suffix 10 _

/-- C4 witness: a concrete successful flush trims the mouse window to its
last 10 entries and keeps the lifetime counter. -/
theorem C4_witness :
    (sendBehavioralData
        { initState 0 with
            sessionId := some "sc_1"
            isTracking := true
            mouseMovements := List.replicate 11 { x := 0, y := 0, timestamp := 0, target := "body" }
            mouseMovementTotal := 42 }
        (FetchOutcome.response 200 "OK" (Except.ok "stored")) 5000).1.mouseMovements
      = sliceLast 10 (List.replicate 11 { x := 0, y := 0, timestamp := 0, target := "body" }) :=
  (C4_flush_success_amended
      { initState 0 with
          sessionId := some "sc_1"
          isTracking := true
          mouseMovements := List.replicate 11 { x := 0, y := 0, timestamp := 0, target := "body" }
          mouseMovementTotal := 42 }
      "sc_1" (FetchOutcome.response 200 "OK" (Except.ok "stored")) 5000
      rfl rfl rfl).1.1

/-- C5: detectBot invoked while no session identifier exists invokes the
continuation exactly once with an error object and posts nothing. -/
theorem C5_detect_missing_session (s : TrackerState) (pageUrl : String)
    (now : Int) (out : FetchOutcome) (h : s.sessionId = none) :
    (detectBot s pageUrl now out).callbackCalls
        = [CallbackArg.error "No session data available"]
    ∧ (detectBot s pageUrl now out).payloadSent = none := by
  unfold detectBot
  rw [h]
  exact ⟨rfl, rfl⟩

/-- C5 witness: from the initial state (no init, hence no session), the
continuation gets exactly the error object and no request is posted. -/
theorem C5_witness :
    (detectBot (initState 0) "/task" 7000
        (FetchOutcome.transportError "unreachable")).callbackCalls
      = [CallbackArg.error "No session data available"]
    ∧ (detectBot (initState 0) "/task" 7000
        (FetchOutcome.transportError "unreachable")).payloadSent = none :=
  C5_detect_missing_session (initState 0) "/task" 7000
    (FetchOutcome.transportError "unreachable") rfl

/-- C6 counterexample: a mouseup on a target with no recorded mousedown
time pushes a record carrying NO duration field (undefined in JS, `none`
here), not duration 0 as claimed. -/
theorem C6_counterexample :
    (handleMouseUp (initState 0)
        { clientX := 3, clientY := 4, button := 0, targetTag := "button",
          targetId := none, targetClassName := none, targetRef := "btn1",
          now := 1250 }).clickPatterns
      = [ClickEvt.mouseup 3 4 1250 0 none]
    ∧ ClickEvt.mouseup 3 4 1250 0 none ≠ ClickEvt.mouseup 3 4 1250 0 (some 0) :=
  ⟨rfl, by decide⟩

/-- C6 (amended): a mouseup records duration up-time minus down-time when
the same target carries a mousedown timestamp (down at 1000 then up at
1250 on the same target yields 250), and records NO duration field when it
does not.  A keyup's duration is up-time minus the globally most recent
keydown time regardless of target, and 0 only when no keydown has ever
occurred; none of these raises an error. -/
theorem C6_duration_amended (s : TrackerState) (e : DomMouseEvent)
    (ek : DomKeyEvent) :
    (∀ dt, s.targetDownTime e.targetRef = some dt →
        (handleMouseUp s e).clickPatterns = s.clickPatterns ++
          [ClickEvt.mouseup e.clientX e.clientY e.now e.button (some (e.now - dt))])
    ∧ (s.targetDownTime e.targetRef = none →
        (handleMouseUp s e).clickPatterns = s.clickPatterns ++
          [ClickEvt.mouseup e.clientX e.clientY e.now e.button none])
    ∧ ((handleKeyUp s ek).keystrokePatterns.getLast?
        = some (KeyEvt.keyup (anonymizeKey ek.key) ek.keyCode ek.now
            (keyUpDuration s.keystrokeStartTime ek.now)))
    ∧ (∀ t, s.keystrokeStartTime = some t →
        keyUpDuration s.keystrokeStartTime ek.now = ek.now - t)
    ∧ (s.keystrokeStartTime = none → keyUpDuration s.keystrokeStartTime ek.now = 0)
    ∧ (handleMouseUp (handleMouseDown (initState 0)
          { clientX := 7, clientY := 8, button := 0, targetTag := "button",
            targetId := none, targetClassName := none, targetRef := "btn1",
            now := 1000 })
          { clientX := 7, clientY := 8, button := 0, targetTag := "button",
            targetId := none, targetClassName := none, targetRef := "btn1",
            now := 1250 }).clickPatterns.getLast?
        = some (ClickEvt.mouseup 7 8 1250 0 (some 250)) := by
  refine ⟨?_, ?_, ?_, ?_, ?_, ?_⟩
  · intro dt h
    simp [handleMouseUp, h]
  · intro h
    simp [handleMouseUp, h]
  · exact pushBounded_getLast? _ _ _ (by decide)
  · intro t h
    simp [keyUpDuration, h]
  · intro h
    simp [keyUpDuration, h]
  · rfl

/-- C6 witness: down at 1000 and up at 1250 on the same target records
duration 250. -/
theorem C6_witness :
    (handleMouseUp (handleMouseDown (initState 0)
        { clientX := 7, clientY := 8, button := 0, targetTag := "button",
          targetId := none, targetClassName := none, targetRef := "btn1",
          now := 1000 })
        { clientX := 7, clientY := 8, button := 0, targetTag := "button",
          targetId := none, targetClassName := none, targetRef := "btn1",
          now := 1250 }).clickPatterns
      = (handleMouseDown (initState 0)
            { clientX := 7, clientY := 8, button := 0, targetTag := "button",
              targetId := none, targetClassName := none, targetRef := "btn1",
              now := 1000 }).clickPatterns
        ++ [ClickEvt.mouseup 7 8 1250 0 (some (1250 - 1000))] :=
  (C6_duration_amended
      (handleMouseDown (initState 0)
        { clientX := 7, clientY := 8, button := 0, targetTag := "button",
          targetId := none, targetClassName := none, targetRef := "btn1",
          now := 1000 })
      { clientX := 7, clientY := 8, button := 0, targetTag := "button",
        targetId := none, targetClassName := none, targetRef := "btn1",
        now := 1250 }
      { key := "a", keyCode := 65, ctrlKey := false, altKey := false,
        shiftKey := false, metaKey := false, now := 0 }).1 1000 rfl

/-- C7: between the current and immediately previous mouse-move records,
the derived velocity is the Euclidean distance divided by the elapsed
milliseconds when the elapsed time is positive and 0 when it is zero; two
events 100 ms apart at distance 50 yield velocity 0.5. -/
theorem C7_velocity_spec (prev curr : MouseEvt) :
    (0 < curr.timestamp - prev.timestamp →
        velocity prev curr
          = Real.sqrt (((curr.x : ℝ) - (prev.x : ℝ)) ^ 2
                + ((curr.y : ℝ) - (prev.y : ℝ)) ^ 2)
            / ((curr.timestamp : ℝ) - (prev.timestamp : ℝ)))
    ∧ (curr.timestamp - prev.timestamp = 0 → velocity prev curr = 0)
    ∧ velocity { x := 0, y := 0, timestamp := 0, target := "body" }
        { x := 30, y := 40, timestamp := 100, target := "body" } = 1 / 2 := by
  refine ⟨?_, ?_, ?_⟩
  · intro h
    unfold velocity
    rw [if_pos h]
    push_cast
    ring_nf
  · intro h
    unfold velocity
    rw [if_neg (by omega)]
  · unfold velocity
    rw [if_pos (by norm_num)]
    have h50 : Real.sqrt 2500 = 50 := by
      rw [show (2500 : ℝ) = 50 ^ 2 by norm_num]
      exact Real.sqrt_sq (by norm_num)
    push_cast
    norm_num
    rw [h50]
    norm_num

/-- C7 witness: the positive-elapsed-time branch applied to the events at
distance 50, 100 ms apart. -/
theorem C7_witness :
    velocity { x := 0, y := 0, timestamp := 0, target := "body" }
        { x := 30, y := 40, timestamp := 100, target := "body" }
      = Real.sqrt ((((30 : Int) : ℝ) - ((0 : Int) : ℝ)) ^ 2
            + (((40 : Int) : ℝ) - ((0 : Int) : ℝ)) ^ 2)
          / (((100 : Int) : ℝ) - ((0 : Int) : ℝ)) :=
  (C7_velocity_spec { x := 0, y := 0, timestamp := 0, target := "body" }
      { x := 30, y := 40, timestamp := 100, target := "body" }).1 (by norm_num)

/-- C8: after stop() on a tracking state, the listeners are withdrawn and
the timer cleared, and any further host-delivered event of any tracked
type leaves the state — every counter and every window — unchanged. -/
theorem C8_stop_inert (s : TrackerState) (h : s.isTracking = true) :
    (stop s).listening = false
    ∧ (stop s).timerActive = false
    ∧ ∀ e : HostEvent, dispatch (stop s) e = stop s := by
  have hs : stop s
      = { s with timerActive := false, listening := false, isTracking := false } := by
    unfold stop
    rw [if_pos h]
  refine ⟨by rw [hs], by rw [hs], ?_⟩
  intro e
  unfold dispatch
  rw [hs]
  rfl

/-- C8 witness: a scroll event delivered after stop() on an initialized
tracker changes nothing. -/
theorem C8_witness :
    dispatch (stop (init (initState 0) none "sc_1"
        { userAgent := "ua", screenResolution := "1920x1080", timezone := "UTC",
          language := "en-US", platform := "linux", cookieEnabled := true,
          doNotTrack := none, onlineStatus := true, touchSupport := false }))
      (HostEvent.scroll { scrollX := 0, scrollY := 120, targetTag := "document", now := 2000 })
    = stop (init (initState 0) none "sc_1"
        { userAgent := "ua", screenResolution := "1920x1080", timezone := "UTC",
          language := "en-US", platform := "linux", cookieEnabled := true,
          doNotTrack := none, onlineStatus := true, touchSupport := false }) :=
  (C8_stop_inert _ rfl).2.2 _

/-- C9: every keydown and keyup record stores `anonymizeKey` of the native
key value: a single-character key is replaced by the placeholder "char"
(never the literal character), while a named key (length greater than one)
keeps its name. -/
theorem C9_key_anonymization (s : TrackerState) (e : DomKeyEvent) :
    ((handleKeyDown s e).keystrokePatterns.getLast? = some (toKeyDownEvt e))
    ∧ ((handleKeyUp s e).keystrokePatterns.getLast?
        = some (toKeyUpEvt s.keystrokeStartTime e))
    ∧ (toKeyDownEvt e = KeyEvt.keydown (anonymizeKey e.key) e.keyCode e.now
          e.ctrlKey e.altKey e.shiftKey e.metaKey)
    ∧ (toKeyUpEvt s.keystrokeStartTime e
        = KeyEvt.keyup (anonymizeKey e.key) e.keyCode e.now
            (keyUpDuration s.keystrokeStartTime e.now))
    ∧ (e.key.length = 1 → anonymizeKey e.key = "char" ∧ anonymizeKey e.key ≠ e.key)
    ∧ (e.key.length ≠ 1 → anonymizeKey e.key = e.key) := by
  refine ⟨?_, ?_, rfl, rfl, ?_, ?_⟩
  · simp [handleKeyDown]
  · exact pushBounded_getLast? _ _ _ (by decide)
  · intro h
    refine ⟨by simp [anonymizeKey, h], ?_⟩
    intro heq
    have hc : e.key = "char" := by
      rw [← heq]
      simp [anonymizeKey, h]
    rw [hc] at h
    exact absurd h (by decide)
  · intro h
    simp [anonymizeKey, h]

/-- C9 witness: the single character key "a" is recorded as "char", never
as the literal character. -/
theorem C9_witness : anonymizeKey "a" = "char" ∧ anonymizeKey "a" ≠ "a" :=
  (C9_key_anonymization (initState 0)
      { key := "a", keyCode := 65, ctrlKey := false, altKey := false,
        shiftKey := false, metaKey := false, now := 1000 }).2.2.2.2.1 rfl

/-- C10: both the periodic-flush payload and the on-demand detection
payload carry exactly `slice(-capacity)` of every category window — the
most recent at-most-capacity entries (100 mouse, 50 click, 100 keystroke,
50 scroll) — even when a window has grown beyond its capacity. -/
theorem C10_payload_bounds (s : TrackerState) (sid : String) (pageUrl : String)
    (now : Int) :
    (∀ out, s.sessionId = some sid → s.isTracking = true →
        (sendBehavioralData s out now).2 = some (buildFlushPayload s sid now))
    ∧ (∀ out, s.sessionId = some sid →
        (detectBot s pageUrl now out).payloadSent
          = some (buildDetectionPayload s sid pageUrl now))
    ∧ ((buildFlushPayload s sid now).mouseMovements
          = sliceLast maxMouseEvents s.mouseMovements
      ∧ (buildFlushPayload s sid now).clickPatterns
          = sliceLast maxClickEvents s.clickPatterns
      ∧ (buildFlushPayload s sid now).keystrokePatterns
          = sliceLast maxKeystrokeEvents s.keystrokePatterns
      ∧ (buildFlushPayload s sid now).scrollPatterns
          = sliceLast maxScrollEvents s.scrollPatterns)
    ∧ ((buildDetectionPayload s sid pageUrl now).mouseMovements
          = sliceLast maxMouseEvents s.mouseMovements
      ∧ (buildDetectionPayload s sid pageUrl now).clickPatterns
          = sliceLast maxClickEvents s.clickPatterns
      ∧ (buildDetectionPayload s sid pageUrl now).keystrokePatterns
          = sliceLast maxKeystrokeEvents s.keystrokePatterns
      ∧ (buildDetectionPayload s sid pageUrl now).scrollPatterns
          = sliceLast maxScrollEvents s.scrollPatterns)
    ∧ ((buildFlushPayload s sid now).mouseMovements.length ≤ maxMouseEvents
      ∧ (buildFlushPayload s sid now).clickPatterns.length ≤ maxClickEvents
      ∧ (buildFlushPayload s sid now).keystrokePatterns.length ≤ maxKeystrokeEvents
      ∧ (buildFlushPayload s sid now).scrollPatterns.length ≤ maxScrollEvents)
    ∧ ((buildDetectionPayload s sid pageUrl now).mouseMovements.length ≤ maxMouseEvents
      ∧ (buildDetectionPayload s sid pageUrl now).clickPatterns.length ≤ maxClickEvents
      ∧ (buildDetectionPayload s sid pageUrl now).keystrokePatterns.length ≤ maxKeystrokeEvents
      ∧ (buildDetectionPayload s sid pageUrl now).scrollPatterns.length ≤ maxScrollEvents) := by
  refine ⟨?_, ?_, ⟨rfl, rfl, rfl, rfl⟩, ⟨rfl, rfl, rfl, rfl⟩,
    ⟨sliceLast_length_le _ _, sliceLast_length_le _ _,
      sliceLast_length_le _ _, sliceLast_length_le _ _⟩,
    ⟨sliceLast_length_le _ _, sliceLast_length_le _ _,
      sliceLast_length_le _ _, sliceLast_length_le _ _⟩⟩
  · intro out hsid htr
    unfold sendBehavioralData
    rw [hsid]
    cases hf : flushResponseSuccess out <;> simp [htr, hf]
  · intro out hsid
    unfold detectBot
    rw [hsid]

/-- C10 witness: a concrete flush posts exactly the capacity-sliced
payload. -/
theorem C10_witness :
    (sendBehavioralData
        { initState 0 with sessionId := some "sc_1", isTracking := true }
        (FetchOutcome.transportError "unreachable") 5000).2
      = some (buildFlushPayload
          { initState 0 with sessionId := some "sc_1", isTracking := true }
          "sc_1" 5000) :=
  (C10_payload_bounds
      { initState 0 with sessionId := some "sc_1", isTracking := true }
      "sc_1" "/task" 5000).1 (FetchOutcome.transportError "unreachable") rfl rfl

end StealthDetect
